import Mathlib

/-!
Verification of `src/apps/desktop/main/agent-manager.ts` (subs-genie-v2).

The file defines a single class `AgentManager` with three async methods
`start`, `pingAgent` and `stop`, two nullable fields `client` and
`transport`, and a module-level singleton.  We embed it shallowly:

* Promises that may reject are modelled as `Except JSError α`.
* The external collaborators (file-system existence checks, the SDK
  `Client.connect` / `Client.callTool`, the transport `close`) are mocked
  by environment records giving the outcome of each awaited operation.
* Every observable side effect (console lines, object construction,
  calls into the SDK) is recorded in an event trace, so that properties
  such as "performs no remote call" or "invokes close exactly once" are
  statable.
* The unchecked JavaScript property access `(result.content[0] as any).text`
  on an empty `content` array throws a `TypeError` at runtime; we model
  that fault as the distinguished error `JSError.typeError`.  It is raised
  inside the `try` block of `pingAgent`, hence logged and rethrown by the
  `catch` clause, exactly as in the source.
-/

namespace AgentManagerSpec

/-- A JavaScript error value: either an error object supplied by the
environment (identified by a tag so "the exact error object" is statable),
or the runtime `TypeError` produced by an unchecked property access. -/
inductive JSError where
  | external : Nat → JSError
  | typeError : JSError
deriving DecidableEq

/-- One element of a `callTool` result's `content` array; `pingAgent`
reads its `text` field. -/
structure ContentItem where
  text : String
deriving DecidableEq

/-- The result object with which the SDK `callTool` promise resolves. -/
structure CallToolResult where
  content : List ContentItem
deriving DecidableEq

/-- The configuration passed to `new StdioClientTransport({command, args})`. -/
structure TransportConfig where
  command : String
  args : List String
deriving DecidableEq

/-- The identity passed to `new Client({name, version}, {capabilities: {}})`. -/
structure ClientInfo where
  name : String
  version : String
deriving DecidableEq

/-- Observable events of one method call: console lines (with their
data), SDK object constructions, and calls into the SDK. -/
inductive Event where
  | logStarting : Event
  | logPythonPath : String → Event
  | logScriptPath : String → Event
  | logPythonMissing : String → Event
  | logRunUvSync : Event
  | logScriptMissing : String → Event
  | newTransport : TransportConfig → Event
  | newClient : ClientInfo → Event
  | connectCall : Event
  | logConnected : Event
  | logConnectionFailed : JSError → Event
  | logSendingPing : Event
  | callToolCall : String → Event
  | logReceived : String → Event
  | logPingFailed : JSError → Event
  | closeCall : Event
  | logTransportClosed : Event
deriving DecidableEq

/-- The two fields of an `AgentManager` instance.  A `some` value models a
non-null field holding the constructed SDK object. -/
structure AgentManager where
  client : Option ClientInfo
  transport : Option TransportConfig
deriving DecidableEq

/-- The freshly constructed instance (`client = null`, `transport = null`),
as created by the module-level `new AgentManager()`. -/
def initialManager : AgentManager := { client := none, transport := none }

/-- Mocked outcomes of the operations `start` awaits or queries:
the two `fs.existsSync` checks and the `client.connect` promise. -/
structure StartEnv where
  pythonExists : Bool
  scriptExists : Bool
  connectResult : Except JSError Unit

/-- Mocked outcome of the `client.callTool` promise awaited by `pingAgent`. -/
structure PingEnv where
  callToolResult : Except JSError CallToolResult

/-- Mocked outcome of the `transport.close()` promise awaited by `stop`. -/
structure StopEnv where
  closeResult : Except JSError Unit

/-- `path.join` on the documented macOS/Linux platform. -/
def pathJoin (a b : String) : String := a ++ "/" ++ b

/-- `path.join(projectRoot, "agents/transcriber/.venv/bin/python")`. -/
def pythonPathOf (projectRoot : String) : String :=
  pathJoin projectRoot "agents/transcriber/.venv/bin/python"

/-- `path.join(projectRoot, "agents/transcriber/main.py")`. -/
def scriptPathOf (projectRoot : String) : String :=
  pathJoin projectRoot "agents/transcriber/main.py"

/-- The fixed identity `{name: "electron-host", version: "1.0.0"}`. -/
def electronClientInfo : ClientInfo := { name := "electron-host", version := "1.0.0" }

/-- `AgentManager.start()`.  `projectRoot` models
`path.resolve(__dirname, "../../..")`, which depends only on the install
location.  Returns the settled value of the returned promise, the updated
fields, and the event trace. -/
def AgentManager.start (projectRoot : String) (env : StartEnv) (_s : AgentManager) :
    Except JSError Unit × AgentManager × List Event :=
  let pythonPath := pythonPathOf projectRoot
  let scriptPath := scriptPathOf projectRoot
  let headerEvents : List Event :=
    [Event.logStarting, Event.logPythonPath pythonPath, Event.logScriptPath scriptPath]
  let pythonCheckEvents : List Event :=
    if env.pythonExists then [] else [Event.logPythonMissing pythonPath, Event.logRunUvSync]
  let scriptCheckEvents : List Event :=
    if env.scriptExists then [] else [Event.logScriptMissing scriptPath]
  let transportConfig : TransportConfig := { command := pythonPath, args := [scriptPath] }
  let s1 : AgentManager := { client := some electronClientInfo, transport := some transportConfig }
  let buildEvents : List Event :=
    [Event.newTransport transportConfig, Event.newClient electronClientInfo, Event.connectCall]
  match env.connectResult with
  | Except.ok _ =>
      (Except.ok (), s1,
        headerEvents ++ pythonCheckEvents ++ scriptCheckEvents ++ buildEvents
          ++ [Event.logConnected])
  | Except.error e =>
      (Except.ok (), s1,
        headerEvents ++ pythonCheckEvents ++ scriptCheckEvents ++ buildEvents
          ++ [Event.logConnectionFailed e])

/-- `AgentManager.pingAgent()`. -/
def AgentManager.pingAgent (env : PingEnv) (s : AgentManager) :
    Except JSError String × AgentManager × List Event :=
  match s.client with
  | none => (Except.ok "Client not initialized", s, [])
  | some _ =>
    let callEvents : List Event := [Event.logSendingPing, Event.callToolCall "ping"]
    match env.callToolResult with
    | Except.error e =>
        (Except.error e, s, callEvents ++ [Event.logPingFailed e])
    | Except.ok result =>
        match result.content with
        | [] =>
            (Except.error JSError.typeError, s,
              callEvents ++ [Event.logPingFailed JSError.typeError])
        | item :: _ =>
            (Except.ok item.text, s, callEvents ++ [Event.logReceived item.text])

/-- `AgentManager.stop()`.  There is no `try`/`catch`: a rejection of
`transport.close()` rejects the whole method. -/
def AgentManager.stopAgent (env : StopEnv) (s : AgentManager) :
    Except JSError Unit × AgentManager × List Event :=
  match s.transport with
  | none => (Except.ok (), s, [])
  | some _ =>
    match env.closeResult with
    | Except.ok _ => (Except.ok (), s, [Event.closeCall, Event.logTransportClosed])
    | Except.error e => (Except.error e, s, [Event.closeCall])

/-- One method invocation together with the mocked outcomes of the
operations it awaits. -/
inductive Call where
  | startCall : String → StartEnv → Call
  | pingCall : PingEnv → Call
  | stopCall : StopEnv → Call

/-- Whether a call is a `start()` invocation. -/
def Call.isStart : Call → Bool
  | Call.startCall _ _ => true
  | Call.pingCall _ => false
  | Call.stopCall _ => false

/-- The state reached after one (atomically completing) method call. -/
def stepState (s : AgentManager) (c : Call) : AgentManager :=
  match c with
  | Call.startCall projectRoot env => (AgentManager.start projectRoot env s).2.1
  | Call.pingCall env => (AgentManager.pingAgent env s).2.1
  | Call.stopCall env => (AgentManager.stopAgent env s).2.1

/-- The state reached after a sequence of method calls. -/
def runCalls (s : AgentManager) (cs : List Call) : AgentManager := cs.foldl stepState s

/-- The number of `transport.close()` invocations in a trace. -/
def countCloseCalls (events : List Event) : Nat :=
  events.countP (fun e => e == Event.closeCall)

/-- The fields of the instance after any completed `start()` run. -/
def stateAfterStart (projectRoot : String) : AgentManager :=
  { client := some electronClientInfo,
    transport := some { command := pythonPathOf projectRoot, args := [scriptPathOf projectRoot] } }

/-! ### Helper lemmas -/

/-- `pingAgent` never assigns either field: the state is returned unchanged. -/
theorem pingAgent_preserves_state (env : PingEnv) (s : AgentManager) :
    (AgentManager.pingAgent env s).2.1 = s := by
  obtain ⟨c, t⟩ := s
  obtain ⟨ctr⟩ := env
  cases c with
  | none => rfl
  | some ci =>
    cases ctr with
    | error e => rfl
    | ok result =>
      cases result with
      | mk content => cases content <;> rfl

/-- `stop` never assigns either field: the state is returned unchanged. -/
theorem stopAgent_preserves_state (env : StopEnv) (s : AgentManager) :
    (AgentManager.stopAgent env s).2.1 = s := by
  obtain ⟨c, t⟩ := s
  obtain ⟨cr⟩ := env
  cases t with
  | none => rfl
  | some tc => cases cr <;> rfl

/-- After any `start()` run, both fields hold the freshly constructed
objects, independently of the prior state and of every mocked outcome. -/
theorem start_state_eq (projectRoot : String) (env : StartEnv) (s : AgentManager) :
    (AgentManager.start projectRoot env s).2.1 = stateAfterStart projectRoot := by
  obtain ⟨pe, se, cr⟩ := env
  cases cr <;> rfl

/-- The `client` field of the state reached by a call sequence is populated
exactly when the initial state's was or the sequence contains a `start`. -/
theorem runCalls_client_isSome (cs : List Call) :
    ∀ s : AgentManager,
      (runCalls s cs).client.isSome = (s.client.isSome || cs.any Call.isStart) := by
  induction cs with
  | nil => intro s; simp [runCalls]
  | cons c rest ih =>
    intro s
    have hstep : runCalls s (c :: rest) = runCalls (stepState s c) rest := rfl
    rw [hstep, ih]
    cases c with
    | startCall projectRoot env =>
      simp [stepState, start_state_eq, stateAfterStart, Call.isStart]
    | pingCall env =>
      simp [stepState, pingAgent_preserves_state, Call.isStart]
    | stopCall env =>
      simp [stepState, stopAgent_preserves_state, Call.isStart]

/-- The `transport` field of the state reached by a call sequence is
populated exactly when the initial state's was or the sequence contains a
`start`. -/
theorem runCalls_transport_isSome (cs : List Call) :
    ∀ s : AgentManager,
      (runCalls s cs).transport.isSome = (s.transport.isSome || cs.any Call.isStart) := by
  induction cs with
  | nil => intro s; simp [runCalls]
  | cons c rest ih =>
    intro s
    have hstep : runCalls s (c :: rest) = runCalls (stepState s c) rest := rfl
    rw [hstep, ih]
    cases c with
    | startCall projectRoot env =>
      simp [stepState, start_state_eq, stateAfterStart, Call.isStart]
    | pingCall env =>
      simp [stepState, pingAgent_preserves_state, Call.isStart]
    | stopCall env =>
      simp [stepState, stopAgent_preserves_state, Call.isStart]

/-- Whenever the `client` field is populated, `pingAgent` issues the
`"ping"` tool call through it. -/
theorem pingAgent_issues_call_of_some (env : PingEnv) (s : AgentManager) (c : ClientInfo)
    (hc : s.client = some c) :
    Event.callToolCall "ping" ∈ (AgentManager.pingAgent env s).2.2 := by
  obtain ⟨cl, t⟩ := s
  obtain ⟨ctr⟩ := env
  cases hc
  cases ctr with
  | error e => simp [AgentManager.pingAgent]
  | ok result =>
    cases result with
    | mk content => cases content <;> simp [AgentManager.pingAgent]

/-! ### Claim theorems -/

/-- C1: for every outcome of the underlying connect operation, `start()`
resolves with a fulfilled empty result and never rejects; the resulting
fields are identical whatever the mocked outcomes and prior state (so the
connection error is recorded in no flag), and a failed connect is logged
(swallowed, not rethrown). -/
theorem start_always_resolves (projectRoot : String) (env env2 : StartEnv)
    (s s2 : AgentManager) (e : JSError) :
    (AgentManager.start projectRoot env s).1 = Except.ok ()
    ∧ (AgentManager.start projectRoot env s).2.1 = (AgentManager.start projectRoot env2 s2).2.1
    ∧ (env.connectResult = Except.error e →
        Event.logConnectionFailed e ∈ (AgentManager.start projectRoot env s).2.2) := by
  obtain ⟨pe, se, cr⟩ := env
  refine ⟨?_, ?_, ?_⟩
  · cases cr <;> rfl
  · rw [start_state_eq, start_state_eq]
  · intro h
    cases cr with
    | ok u => cases h
    | error e2 =>
      cases h
      simp [AgentManager.start]

/-- C1 witness: with a failing connect outcome, `start()` still resolves
with `ok ()` and logs the connection error. -/
theorem start_always_resolves_witness :
    (StartEnv.mk true true (Except.error (JSError.external 0))).connectResult
        = Except.error (JSError.external 0)
    ∧ (AgentManager.start "/app"
        (StartEnv.mk true true (Except.error (JSError.external 0))) initialManager).1
        = Except.ok ()
    ∧ Event.logConnectionFailed (JSError.external 0)
        ∈ (AgentManager.start "/app"
            (StartEnv.mk true true (Except.error (JSError.external 0))) initialManager).2.2 :=
  ⟨rfl,
    (start_always_resolves "/app" (StartEnv.mk true true (Except.error (JSError.external 0)))
      (StartEnv.mk false false (Except.ok ())) initialManager initialManager
      (JSError.external 0)).1,
    (start_always_resolves "/app" (StartEnv.mk true true (Except.error (JSError.external 0)))
      (StartEnv.mk false false (Except.ok ())) initialManager initialManager
      (JSError.external 0)).2.2 rfl⟩

/-- C2: on an instance whose `client` field is null, `pingAgent()` returns
the sentinel string as a normal (`ok`) result, leaves the state unchanged,
and produces no event at all — in particular no remote call. -/
theorem pingAgent_no_client (env : PingEnv) (s : AgentManager) (h : s.client = none) :
    AgentManager.pingAgent env s = (Except.ok "Client not initialized", s, []) := by
  obtain ⟨c, t⟩ := s
  cases h
  rfl

/-- C2 witness: the fresh instance has a null `client` and `pingAgent`
returns the sentinel with an empty trace, even though the mocked remote
call would have rejected. -/
theorem pingAgent_no_client_witness :
    initialManager.client = none
    ∧ AgentManager.pingAgent (PingEnv.mk (Except.error (JSError.external 5))) initialManager
        = (Except.ok "Client not initialized", initialManager, []) :=
  ⟨rfl, pingAgent_no_client (PingEnv.mk (Except.error (JSError.external 5))) initialManager rfl⟩

/-- C3 counterexample: `pingAgent()` is not the only operation that
propagates failure to its caller — `stop()` has no catch, so a rejection
of the transport's close operation rejects `stop()` as well. -/
theorem stopAgent_also_propagates_failure :
    (AgentManager.stopAgent (StopEnv.mk (Except.error (JSError.external 7)))
        (stateAfterStart "/app")).1 = Except.error (JSError.external 7) := rfl

/-- C3 amended: for every error with which the client's `callTool`
operation rejects, `pingAgent()` rethrows that exact error object after
logging it (the exclusivity conjunct is dropped: `stop()` also propagates
close failures, though without catching or logging them). -/
theorem pingAgent_rethrows_exact_error (env : PingEnv) (s : AgentManager) (c : ClientInfo)
    (e : JSError) (hc : s.client = some c) (he : env.callToolResult = Except.error e) :
    (AgentManager.pingAgent env s).1 = Except.error e
    ∧ Event.logPingFailed e ∈ (AgentManager.pingAgent env s).2.2 := by
  obtain ⟨cl, t⟩ := s
  obtain ⟨ctr⟩ := env
  cases hc
  cases he
  constructor
  · rfl
  · simp [AgentManager.pingAgent]

/-- C3 witness: after a `start()`, a `callTool` rejection with a concrete
error object is rethrown by `pingAgent` as that same object. -/
theorem pingAgent_rethrows_exact_error_witness :
    (stateAfterStart "/app").client = some electronClientInfo
    ∧ (PingEnv.mk (Except.error (JSError.external 3))).callToolResult
        = Except.error (JSError.external 3)
    ∧ (AgentManager.pingAgent (PingEnv.mk (Except.error (JSError.external 3)))
        (stateAfterStart "/app")).1 = Except.error (JSError.external 3) :=
  ⟨rfl, rfl,
    (pingAgent_rethrows_exact_error (PingEnv.mk (Except.error (JSError.external 3)))
      (stateAfterStart "/app") electronClientInfo (JSError.external 3) rfl rfl).1⟩

/-- C4: when the client is populated and `callTool` resolves with a result
whose content sequence has at least one element, `pingAgent()` returns
exactly the `text` field of the first element. -/
theorem pingAgent_returns_first_text (env : PingEnv) (s : AgentManager) (c : ClientInfo)
    (item : ContentItem) (rest : List ContentItem)
    (hc : s.client = some c)
    (hr : env.callToolResult = Except.ok (CallToolResult.mk (item :: rest))) :
    (AgentManager.pingAgent env s).1 = Except.ok item.text := by
  obtain ⟨cl, t⟩ := s
  obtain ⟨ctr⟩ := env
  cases hc
  cases hr
  rfl

/-- C4 witness: a two-element content sequence yields the first element's
text. -/
theorem pingAgent_returns_first_text_witness :
    (stateAfterStart "/app").client = some electronClientInfo
    ∧ (PingEnv.mk (Except.ok (CallToolResult.mk
        [ContentItem.mk "pong", ContentItem.mk "ignored"]))).callToolResult
        = Except.ok (CallToolResult.mk [ContentItem.mk "pong", ContentItem.mk "ignored"])
    ∧ (AgentManager.pingAgent (PingEnv.mk (Except.ok (CallToolResult.mk
        [ContentItem.mk "pong", ContentItem.mk "ignored"]))) (stateAfterStart "/app")).1
        = Except.ok "pong" :=
  ⟨rfl, rfl,
    pingAgent_returns_first_text (PingEnv.mk (Except.ok (CallToolResult.mk
        [ContentItem.mk "pong", ContentItem.mk "ignored"]))) (stateAfterStart "/app")
      electronClientInfo (ContentItem.mk "pong") [ContentItem.mk "ignored"] rfl rfl⟩

/-- C5: when the client is populated and `callTool` resolves with an empty
content sequence, `pingAgent()` does not produce a normal return: the
unchecked access to the first content element raises the runtime
`TypeError` fault, which is what the method ends with. -/
theorem pingAgent_empty_content_faults (env : PingEnv) (s : AgentManager) (c : ClientInfo)
    (hc : s.client = some c)
    (hr : env.callToolResult = Except.ok (CallToolResult.mk [])) :
    (AgentManager.pingAgent env s).1 = Except.error JSError.typeError
    ∧ ∀ t : String, (AgentManager.pingAgent env s).1 ≠ Except.ok t := by
  obtain ⟨cl, tr⟩ := s
  obtain ⟨ctr⟩ := env
  cases hc
  cases hr
  exact ⟨rfl, fun t h => by cases h⟩

/-- C5 witness: an empty content sequence makes `pingAgent` end in the
`TypeError` fault rather than any normal return. -/
theorem pingAgent_empty_content_faults_witness :
    (stateAfterStart "/app").client = some electronClientInfo
    ∧ (PingEnv.mk (Except.ok (CallToolResult.mk []))).callToolResult
        = Except.ok (CallToolResult.mk [])
    ∧ (AgentManager.pingAgent (PingEnv.mk (Except.ok (CallToolResult.mk [])))
        (stateAfterStart "/app")).1 = Except.error JSError.typeError :=
  ⟨rfl, rfl,
    (pingAgent_empty_content_faults (PingEnv.mk (Except.ok (CallToolResult.mk [])))
      (stateAfterStart "/app") electronClientInfo rfl rfl).1⟩

/-- C6: for every combination of outcomes of the two existence checks,
`start()` does not abort: it constructs the Transport with the same
unchanged resolved paths, constructs the Client, and attempts the connect;
a failing check only adds an error log line. -/
theorem start_proceeds_despite_failed_checks (projectRoot : String) (env : StartEnv)
    (s : AgentManager) :
    Event.newTransport (TransportConfig.mk (pythonPathOf projectRoot) [scriptPathOf projectRoot])
        ∈ (AgentManager.start projectRoot env s).2.2
    ∧ Event.newClient electronClientInfo ∈ (AgentManager.start projectRoot env s).2.2
    ∧ Event.connectCall ∈ (AgentManager.start projectRoot env s).2.2
    ∧ (env.pythonExists = false →
        Event.logPythonMissing (pythonPathOf projectRoot)
          ∈ (AgentManager.start projectRoot env s).2.2)
    ∧ (env.scriptExists = false →
        Event.logScriptMissing (scriptPathOf projectRoot)
          ∈ (AgentManager.start projectRoot env s).2.2) := by
  obtain ⟨pe, se, cr⟩ := env
  refine ⟨?_, ?_, ?_, ?_, ?_⟩ <;>
    cases cr <;> cases pe <;> cases se <;>
      simp [AgentManager.start]

/-- C6 witness: with both checks failing and a succeeding connect,
`start()` still builds the Transport on the unchanged paths, attempts the
connect, and logs both missing-file errors. -/
theorem start_proceeds_despite_failed_checks_witness :
    (StartEnv.mk false false (Except.ok ())).pythonExists = false
    ∧ (StartEnv.mk false false (Except.ok ())).scriptExists = false
    ∧ Event.newTransport (TransportConfig.mk (pythonPathOf "/app") [scriptPathOf "/app"])
        ∈ (AgentManager.start "/app" (StartEnv.mk false false (Except.ok ())) initialManager).2.2
    ∧ Event.logPythonMissing (pythonPathOf "/app")
        ∈ (AgentManager.start "/app" (StartEnv.mk false false (Except.ok ())) initialManager).2.2
    ∧ Event.logScriptMissing (scriptPathOf "/app")
        ∈ (AgentManager.start "/app" (StartEnv.mk false false (Except.ok ())) initialManager).2.2 :=
  ⟨rfl, rfl,
    (start_proceeds_despite_failed_checks "/app" (StartEnv.mk false false (Except.ok ()))
      initialManager).1,
    (start_proceeds_despite_failed_checks "/app" (StartEnv.mk false false (Except.ok ()))
      initialManager).2.2.2.1 rfl,
    (start_proceeds_despite_failed_checks "/app" (StartEnv.mk false false (Except.ok ()))
      initialManager).2.2.2.2 rfl⟩

/-- C7: `stop()` never clears either field; it invokes close exactly once
per call when the transport is populated and not at all otherwise; with no
prior `start()` it resolves with `ok` and an empty trace; and because the
fields survive, a second `stop()` invokes close on the same transport
again. -/
theorem stopAgent_close_behavior (env : StopEnv) (s : AgentManager) (cs : List Call)
    (h : cs.any Call.isStart = false) :
    (AgentManager.stopAgent env s).2.1 = s
    ∧ countCloseCalls (AgentManager.stopAgent env s).2.2
        = (if s.transport.isSome then 1 else 0)
    ∧ AgentManager.stopAgent env (runCalls initialManager cs)
        = (Except.ok (), runCalls initialManager cs, [])
    ∧ countCloseCalls
        (AgentManager.stopAgent env (AgentManager.stopAgent env s).2.1).2.2
        = (if s.transport.isSome then 1 else 0) := by
  have hnone : (runCalls initialManager cs).transport = none := by
    have h2 := runCalls_transport_isSome cs initialManager
    rw [h] at h2
    simp [initialManager] at h2
    exact h2
  have hstop : ∀ s2 : AgentManager, s2.transport = none →
      AgentManager.stopAgent env s2 = (Except.ok (), s2, []) := by
    intro s2 h2
    obtain ⟨c2, t2⟩ := s2
    cases h2
    rfl
  have hcount : ∀ s2 : AgentManager,
      countCloseCalls (AgentManager.stopAgent env s2).2.2
        = (if s2.transport.isSome then 1 else 0) := by
    intro s2
    obtain ⟨c2, t2⟩ := s2
    obtain ⟨cr⟩ := env
    cases t2 with
    | none => rfl
    | some tc => cases cr <;> rfl
  refine ⟨stopAgent_preserves_state env s, hcount s, hstop _ hnone, ?_⟩
  rw [stopAgent_preserves_state env s]
  exact hcount s

/-- C7 witness: after a sequence with no `start()` (one failed ping and
one stop), `stop()` resolves with `ok` and makes no close call; and on a
started instance close is called exactly once per `stop()`. -/
theorem stopAgent_close_behavior_witness :
    ([Call.pingCall (PingEnv.mk (Except.error (JSError.external 1))),
        Call.stopCall (StopEnv.mk (Except.ok ()))].any Call.isStart = false)
    ∧ AgentManager.stopAgent (StopEnv.mk (Except.ok ()))
        (runCalls initialManager
          [Call.pingCall (PingEnv.mk (Except.error (JSError.external 1))),
            Call.stopCall (StopEnv.mk (Except.ok ()))])
        = (Except.ok (),
            runCalls initialManager
              [Call.pingCall (PingEnv.mk (Except.error (JSError.external 1))),
                Call.stopCall (StopEnv.mk (Except.ok ()))], [])
    ∧ countCloseCalls
        (AgentManager.stopAgent (StopEnv.mk (Except.ok ())) (stateAfterStart "/app")).2.2 = 1 :=
  ⟨rfl,
    (stopAgent_close_behavior (StopEnv.mk (Except.ok ())) (stateAfterStart "/app")
      [Call.pingCall (PingEnv.mk (Except.error (JSError.external 1))),
        Call.stopCall (StopEnv.mk (Except.ok ()))] rfl).2.2.1,
    (stopAgent_close_behavior (StopEnv.mk (Except.ok ())) (stateAfterStart "/app")
      [Call.pingCall (PingEnv.mk (Except.error (JSError.external 1))),
        Call.stopCall (StopEnv.mk (Except.ok ()))] rfl).2.1⟩

/-- C8: over all reachable states of an instance (any sequence of
atomically completing `start`, `pingAgent`, `stop` calls from the fresh
state), the `client` field is populated exactly when the sequence contains
at least one completed `start()` — regardless of whether its connect
attempt succeeded. -/
theorem client_populated_iff_started (cs : List Call) :
    (runCalls initialManager cs).client.isSome = cs.any Call.isStart := by
  rw [runCalls_client_isSome]
  simp [initialManager]

/-- C9 counterexample: after a completed `start()`, `pingAgent()` can
still return the sentinel string — it suffices that the remote result's
first content element carries exactly that text, and the caller cannot
distinguish this from the uninitialized early return. -/
theorem pingAgent_after_start_sentinel_example :
    (AgentManager.pingAgent
        (PingEnv.mk (Except.ok (CallToolResult.mk [ContentItem.mk "Client not initialized"])))
        (runCalls initialManager
          [Call.startCall "/app" (StartEnv.mk true true (Except.ok ()))])).1
      = Except.ok "Client not initialized" := rfl

/-- C9 amended: after any sequence containing a completed `start()` —
including runs with failed checks or a rejected connect — `pingAgent()`
never takes the uninitialized early return: the `client` field is
populated and the `"ping"` remote call is always issued through it (the
sentinel text can still come back as a normal remote result). -/
theorem pingAgent_after_start_issues_call (cs : List Call) (env : PingEnv)
    (h : cs.any Call.isStart = true) :
    (runCalls initialManager cs).client.isSome = true
    ∧ Event.callToolCall "ping"
        ∈ (AgentManager.pingAgent env (runCalls initialManager cs)).2.2 := by
  have hsome : (runCalls initialManager cs).client.isSome = true := by
    rw [runCalls_client_isSome, h]
    simp
  refine ⟨hsome, ?_⟩
  cases hx : (runCalls initialManager cs).client with
  | none => rw [hx] at hsome; cases hsome
  | some c => exact pingAgent_issues_call_of_some env _ c hx

/-- C9 witness: after one `start()` whose checks failed and whose connect
was rejected, `pingAgent()` still issues the `"ping"` call. -/
theorem pingAgent_after_start_issues_call_witness :
    ([Call.startCall "/app" (StartEnv.mk false false (Except.error (JSError.external 2)))].any
        Call.isStart = true)
    ∧ Event.callToolCall "ping"
        ∈ (AgentManager.pingAgent (PingEnv.mk (Except.error (JSError.external 4)))
            (runCalls initialManager
              [Call.startCall "/app"
                (StartEnv.mk false false (Except.error (JSError.external 2)))])).2.2 :=
  ⟨rfl,
    (pingAgent_after_start_issues_call
      [Call.startCall "/app" (StartEnv.mk false false (Except.error (JSError.external 2)))]
      (PingEnv.mk (Except.error (JSError.external 4))) rfl).2⟩

/-- C10: `stop()` has no error handling: when the transport is populated
and its close operation rejects, `stop()` propagates that exact error,
leaves both fields unchanged, and does not log the completion message. -/
theorem stopAgent_propagates_close_error (env : StopEnv) (s : AgentManager)
    (t : TransportConfig) (e : JSError)
    (ht : s.transport = some t) (he : env.closeResult = Except.error e) :
    (AgentManager.stopAgent env s).1 = Except.error e
    ∧ (AgentManager.stopAgent env s).2.1 = s
    ∧ Event.logTransportClosed ∉ (AgentManager.stopAgent env s).2.2 := by
  obtain ⟨cv, tv⟩ := s
  obtain ⟨cr⟩ := env
  cases ht
  cases he
  refine ⟨rfl, rfl, ?_⟩
  simp [AgentManager.stopAgent]

/-- C10 witness: on a started instance a rejecting close makes `stop()`
propagate the same error with the state intact and no completion log. -/
theorem stopAgent_propagates_close_error_witness :
    (stateAfterStart "/app").transport
        = some (TransportConfig.mk (pythonPathOf "/app") [scriptPathOf "/app"])
    ∧ (StopEnv.mk (Except.error (JSError.external 9))).closeResult
        = Except.error (JSError.external 9)
    ∧ (AgentManager.stopAgent (StopEnv.mk (Except.error (JSError.external 9)))
        (stateAfterStart "/app")).1 = Except.error (JSError.external 9)
    ∧ (AgentManager.stopAgent (StopEnv.mk (Except.error (JSError.external 9)))
        (stateAfterStart "/app")).2.1 = stateAfterStart "/app" :=
  ⟨rfl, rfl,
    (stopAgent_propagates_close_error (StopEnv.mk (Except.error (JSError.external 9)))
      (stateAfterStart "/app") (TransportConfig.mk (pythonPathOf "/app") [scriptPathOf "/app"])
      (JSError.external 9) rfl rfl).1,
    (stopAgent_propagates_close_error (StopEnv.mk (Except.error (JSError.external 9)))
      (stateAfterStart "/app") (TransportConfig.mk (pythonPathOf "/app") [scriptPathOf "/app"])
      (JSError.external 9) rfl rfl).2.1⟩

end AgentManagerSpec
